import Mathlib

/-!
Verification of the JT/T 808 message-processing core (jt808-server-go).

The development shallowly embeds the two source files
`internal/protocol/msg_processor.go` and
`internal/protocol/model/msg_0100.go`.  Collaborator packages that are not
part of the source under verification (the `hex` frame codec, the `hash`
FNV helper, the `storage` caches, the keep-alive timer, and the remaining
message structs of the `model` package) are modelled from the
specification; each such definition carries a doc comment starting with
`Modelled from the spec:`.

Go strings are byte sequences; we embed them as `List Nat` with every
element a byte value.  Machine integers are embedded as `Nat` (with
explicit `% 2 ^ w` where overflow matters) or `Int` where the Go source
computes in `int`.
-/

namespace JT808

/-- Go byte strings / byte slices: lists of byte values. -/
abbrev Bytes := List Nat

/-! ## Frame codec (component A) -/

/-- Modelled from the spec: `hex.ReadByte` reads one byte at the cursor and
advances it by 1.  Reading past the end yields 0 (the claims only apply it
in range). -/
def readByteAt (pkt : Bytes) (idx : Nat) : Nat :=
  (pkt.drop idx).getD 0 0

/-- Modelled from the spec: `hex.ReadWord` reads a big-endian 16-bit word at
the cursor and advances it by 2. -/
def readWord (pkt : Bytes) (idx : Nat) : Nat :=
  256 * (pkt.drop idx).getD 0 0 + (pkt.drop idx).getD 1 0

/-- Modelled from the spec: `hex.ReadString` reads `n` raw bytes at the
cursor and advances it by `n` (the NUL trimming is done by the caller in
`Msg0100.Decode`, mirroring the source). -/
def readStr (pkt : Bytes) (idx n : Nat) : Bytes :=
  (pkt.drop idx).take n

/-- Modelled from the spec: the GBK↔UTF-8 transcoder used by
`hex.ReadGBK`/`hex.WriteGBK`.  The transcoder pair is inverse on valid
strings; we model it on the byte-transparent subset (exact on ASCII) as the
identity on byte sequences. -/
def gbkDecode (s : Bytes) : Bytes := s

/-- Modelled from the spec: inverse direction of the GBK transcoder, same
byte-transparent model as `gbkDecode`. -/
def gbkEncode (s : Bytes) : Bytes := s

/-- Modelled from the spec: `hex.ReadGBK` reads `n` bytes and transcodes
them from GBK. -/
def readGBK (pkt : Bytes) (idx n : Nat) : Bytes :=
  gbkDecode ((pkt.drop idx).take n)

/-- Modelled from the spec: `hex.WriteWord` appends a big-endian 16-bit
word. -/
def writeWord (v : Nat) : Bytes :=
  [v / 256 % 256, v % 256]

/-- Right-pad a byte string with NUL (0x00) up to length `n`; an overlong
string is kept unchanged, exactly as the fill loops of `Msg0100.Encode`
behave when `toFillLen` is negative. -/
def padTo (n : Nat) (s : Bytes) : Bytes :=
  s ++ List.replicate (n - s.length) 0

/-- `strings.TrimRight(s, "\x00")`: drop the trailing NUL bytes. -/
def trimRightNul (s : Bytes) : Bytes :=
  (s.reverse.dropWhile (fun b => b == 0)).reverse

/-! ## Header data model (component B) -/

/-- Protocol revisions distinguished by the header codec. -/
inductive VersionType where
  | Version2011
  | Version2013
  | Version2019
deriving DecidableEq, Repr

/-- The body attribute word of a JT/T 808 header: body length plus the
version descriptor (encryption and fragmentation bits are not consulted by
the verified code). -/
structure MsgBodyAttr where
  bodyLength : Nat
  versionDesc : VersionType
deriving DecidableEq, Repr

/-- JT/T 808 message header, as consumed by the verified code. -/
structure MsgHeader where
  msgID : Nat
  attr : MsgBodyAttr
  phoneNumber : Bytes
  serialNumber : Nat
deriving DecidableEq, Repr

/-- A framed packet: parsed header plus raw body bytes. -/
structure PacketData where
  header : MsgHeader
  body : Bytes
deriving DecidableEq, Repr

/-! ## Errors -/

/-- The sentinel error values of the core (`msg_processor.go` and the model
and storage packages). -/
inductive BaseErr where
  | errMsgIDNotSupportted
  | errNotAuthorized
  | errActiveClose
  | errDeviceNotFound
  | errDecodeMsg
  | errEncodeHeader
deriving DecidableEq, Repr

/-- Go error values as seen through `github.com/pkg/errors`: a sentinel, or
a wrap of a cause (`errors.Wrap`/`errors.Wrapf`; the human-readable context
string carries no behaviour and is omitted). -/
inductive GoErr where
  | base (b : BaseErr)
  | wrapped (cause : GoErr)
deriving DecidableEq, Repr

/-- `errors.Is(e, base b)`: walk the cause chain. -/
def errorsIs : GoErr → BaseErr → Bool
  | .base b, b' => b == b'
  | .wrapped c, b' => errorsIs c b'

/-! ## Msg0100 (terminal register), from `model/msg_0100.go` -/

/-- 终端注册 message 0x0100, fields as in the source struct. -/
structure Msg0100 where
  header : MsgHeader
  provinceID : Nat
  cityID : Nat
  manufacturerID : Bytes
  deviceMode : Bytes
  deviceID : Bytes
  plateColor : Nat
  plateNumber : Bytes
deriving DecidableEq, Repr

/-- `Msg0100.Decode`, translated from the source.  Note on the 2013 branch:
the source line `ver = &[]VersionType{Version2011}[0]` reassigns the local
pointer variable `ver` (which is never read afterwards) instead of writing
through it, so the header's version descriptor is left unchanged; the
embedding therefore carries no header update. -/
def Msg0100.Decode (packet : PacketData) : Except GoErr Msg0100 :=
  let pkt := packet.body
  let provinceID := readWord pkt 0
  let cityID := readWord pkt 2
  let ver := packet.header.attr.versionDesc
  let lens : Option (Nat × Nat × Nat) :=
    if ver = .Version2019 then some (11, 30, 30)
    else if ver = .Version2013 then
      let remainLen : Int := (packet.header.attr.bodyLength : Int) - 4
      if remainLen > 5 + 20 + 7 + 1 then some (5, 20, 7) else some (5, 8, 7)
    else none
  match lens with
  | none => .error (.base .errDecodeMsg)
  | some (manuLen, modeLen, idLen) =>
    let manufacturerID := trimRightNul (readStr pkt 4 manuLen)
    let i1 := 4 + manuLen
    let deviceMode := trimRightNul (readStr pkt i1 modeLen)
    let i2 := i1 + modeLen
    let deviceID := trimRightNul (readStr pkt i2 idLen)
    let i3 := i2 + idLen
    let plateColor := readByteAt pkt i3
    let i4 := i3 + 1
    let plateNumber := readGBK pkt i4 ((packet.header.attr.bodyLength : Int) - i4).toNat
    .ok { header := packet.header, provinceID, cityID, manufacturerID,
          deviceMode, deviceID, plateColor, plateNumber }

/-- Modelled from the spec: `writeHeader` serializes the header in front of
the body; the header invariant is that `attr.bodyLength` equals the body
byte count.  We keep the packet as (header, body) rather than flat bytes,
so the model returns the header with the body length set. -/
def writeHeader (h : MsgHeader) (body : Bytes) : PacketData :=
  { header := { h with attr := { h.attr with bodyLength := body.length } },
    body := body }

/-- `Msg0100.Encode`, translated from the source: fixed-width NUL-padded
manufacturer/model/id fields with version-dependent widths, then plate
color and the GBK plate number, then the header. -/
def Msg0100.Encode (m : Msg0100) : Except GoErr PacketData :=
  let msgVer := m.header.attr.versionDesc
  let lens : Option (Nat × Nat × Nat) :=
    if msgVer = .Version2019 then some (11, 30, 30)
    else if msgVer = .Version2013 then some (5, 20, 7)
    else if msgVer = .Version2011 then some (5, 8, 7)
    else none
  match lens with
  | none => .error (.base .errEncodeHeader)
  | some (manuLen, modeLen, idLen) =>
    let pkt := writeWord m.provinceID ++ writeWord m.cityID
    let pkt := pkt ++ padTo manuLen m.manufacturerID
    let pkt := pkt ++ padTo modeLen m.deviceMode
    let pkt := pkt ++ padTo idLen m.deviceID
    let pkt := pkt ++ [m.plateColor]
    let pkt := pkt ++ gbkEncode m.plateNumber
    .ok (writeHeader m.header pkt)

/-! ## Device registry, GIS cache and keep-alive timer (components D, E, F)

These live in the `storage` package and the timer subsystem, which are not
part of the source under verification; they are modelled from the spec. -/

/-- Device lifecycle status. -/
inductive DeviceStatus where
  | offline
  | online
  | sleeping
deriving DecidableEq, Repr

/-- Transport kind of a session. -/
inductive TransProto where
  | tcp
  | udp
deriving DecidableEq, Repr

/-- A registered device record (`model.Device`), modelled from the spec's
data model; `keepalive` is in seconds and `conn` is the opaque connection
handle. -/
structure Device where
  id : Bytes
  plateNumber : Bytes
  phoneNumber : Bytes
  sessionID : Bytes
  transProto : TransProto
  conn : Nat
  keepalive : Nat
  status : DeviceStatus
  imei : Bytes
  softwareVersion : Bytes
deriving DecidableEq, Repr

/-- Per-connection session identity injected into handler context. -/
structure Session where
  id : Bytes
  transProto : TransProto
  conn : Nat
deriving DecidableEq, Repr

/-- Modelled from the spec: the decoded status-bit record produced by
`model.NewGISMeta().Decode(statusSign)`; the ACC bit is bit 0 of the 32-bit
status-sign word (JT/T 808 §8.12). -/
structure GISMeta where
  accStatus : Nat
  statusSign : Nat
deriving DecidableEq, Repr

/-- Modelled from the spec: decode the 32-bit status-sign word; ACC is
bit 0. -/
def GISMeta.decode (statusSign : Nat) : GISMeta :=
  { accStatus := statusSign % 2, statusSign := statusSign }

/-- Modelled from the spec: per-device GIS ring capacity (default 128). -/
def gisRingCap : Nat := 128

/-- Modelled from the spec: ring-buffer write — append, overwriting the
oldest entry when full. -/
def ringWrite (r : List GISMeta) (g : GISMeta) : List GISMeta :=
  if r.length < gisRingCap then r ++ [g] else r.drop 1 ++ [g]

/-- The mutable server-side state touched by the handlers: the device
registry (keyed by phone number), the keep-alive timer entries (phone
numbers with a live deadline), and the GIS cache (rings under their cache
key).  Modelled from the spec's storage and timer contracts. -/
structure ServerState where
  devices : List Device
  timers : List Bytes
  gis : List (Bytes × List GISMeta)
deriving DecidableEq, Repr

/-- The empty state: no devices, no timers, no GIS rings. -/
def emptyState : ServerState := { devices := [], timers := [], gis := [] }

/-- Modelled from the spec: `cache.GetDeviceByPhone` — lookup by phone
number; absence is the `DeviceNotFound` error (modelled as `none`). -/
def ServerState.getDeviceByPhone (st : ServerState) (p : Bytes) : Option Device :=
  st.devices.find? (fun d => decide (d.phoneNumber = p))

/-- Modelled from the spec: `cache.HasPhone`. -/
def ServerState.hasPhone (st : ServerState) (p : Bytes) : Bool :=
  (st.getDeviceByPhone p).isSome

/-- Modelled from the spec: `cache.HasPlate` — the derived plate index. -/
def ServerState.hasPlate (st : ServerState) (pl : Bytes) : Bool :=
  st.devices.any (fun d => decide (d.plateNumber = pl))

/-- Modelled from the spec: `cache.CacheDevice` — put, replacing any
existing record with the same phone number. -/
def ServerState.cacheDevice (st : ServerState) (d : Device) : ServerState :=
  { st with
    devices := d :: st.devices.filter (fun e => decide (e.phoneNumber ≠ d.phoneNumber)) }

/-- Modelled from the spec: `cache.DelDeviceByPhone` — remove the record
(absence tolerated). -/
def ServerState.delDeviceByPhone (st : ServerState) (p : Bytes) : ServerState :=
  { st with devices := st.devices.filter (fun e => decide (e.phoneNumber ≠ p)) }

/-- Modelled from the spec: `timer.Register(phone)` — create a keep-alive
deadline entry for the phone number. -/
def ServerState.timerRegister (st : ServerState) (p : Bytes) : ServerState :=
  { st with timers := p :: st.timers }

/-- Modelled from the spec: `timer.Cancel(phone)` — idempotent removal of
the entry. -/
def ServerState.timerCancel (st : ServerState) (p : Bytes) : ServerState :=
  { st with timers := st.timers.filter (fun q => decide (q ≠ p)) }

/-- Whether the keep-alive timer has an entry for the phone number. -/
def ServerState.timerHas (st : ServerState) (p : Bytes) : Bool :=
  st.timers.any (fun q => decide (q = p))

/-- The GIS ring stored under a cache key (a fresh ring when absent),
modelled from the spec's `gisCache.GetGisRingByPhone`. -/
def ServerState.gisRing (st : ServerState) (key : Bytes) : List GISMeta :=
  ((st.gis.find? (fun e => decide (e.1 = key))).map Prod.snd).getD []

/-- Write a fix into the ring stored under `key` (creating the ring on
demand), modelled from the spec's ring-buffer contract. -/
def ServerState.gisWrite (st : ServerState) (key : Bytes) (g : GISMeta) : ServerState :=
  { st with
    gis := (key, ringWrite (st.gisRing key) g) ::
           st.gis.filter (fun e => decide (e.1 ≠ key)) }

/-! ## Auth code (`genAuthCode` and `hash.FNV32`) -/

/-- Modelled from the spec: `hash.FNV32` — the 32-bit FNV-1 hash of a byte
string (offset basis 2166136261, prime 16777619, arithmetic mod 2^32). -/
def FNV32 (s : Bytes) : Nat :=
  s.foldl (fun h b => (h * 16777619 % 4294967296) ^^^ b % 256) 2166136261

/-- Decimal digits of a natural number as ASCII bytes
(`strconv.Itoa`). -/
def natToDecBytes (n : Nat) : Bytes :=
  (Nat.toDigits 10 n).map Char.toNat

/-- `genAuthCode`, translated from the source: FNV32 of
`device_id ++ "_" ++ plate_number ++ "_" ++ phone_number`, formatted in
decimal (0x5F is the byte of the underscore separator). -/
def genAuthCode (d : Device) : Bytes :=
  natToDecBytes (FNV32 (d.id ++ [0x5F] ++ d.plateNumber ++ [0x5F] ++ d.phoneNumber))

/-! ## Result codes of the reply messages -/

/-- Modelled from the spec: 0x8001 universal result — success. -/
def ResultSuccess : Nat := 0

/-- Modelled from the spec: 0x8001 universal result — failure
(scenario: auth failure replies result=1). -/
def ResultFail : Nat := 1

/-- Modelled from the spec: 0x8100 result — plate already registered
(scenario: duplicate plate replies result=2). -/
def ResCarAlreadyRegister : Nat := 2

/-- Modelled from the spec: 0x8100 result — terminal already registered. -/
def ResDeviceAlreadyRegister : Nat := 3

/-! ## Other message payloads

These structs live in the `model` package, outside the verified source;
they are modelled from the spec with the fields the handlers consult. -/

/-- Modelled from the spec: 0x0001 terminal universal ack — the decoded ack
fields (answer serial, answer msg id, result). -/
structure Msg0001 where
  header : MsgHeader
  answerSerialNumber : Nat
  answerMessageID : Nat
  result : Nat
deriving DecidableEq, Repr

/-- Modelled from the spec: 0x0002 heartbeat — empty body. -/
structure Msg0002 where
  header : MsgHeader
deriving DecidableEq, Repr

/-- Modelled from the spec: 0x0003 terminal logout — empty body. -/
structure Msg0003 where
  header : MsgHeader
deriving DecidableEq, Repr

/-- Modelled from the spec: 0x0102 terminal authenticate — the body carries
the auth code. -/
structure Msg0102 where
  header : MsgHeader
  authCode : Bytes
  imei : Bytes
  softwareVersion : Bytes
deriving DecidableEq, Repr

/-- Modelled from the spec: 0x0200 location report — alarm sign and the
32-bit status-sign word (the remaining position fields are not consulted by
the verified handlers). -/
structure Msg0200 where
  header : MsgHeader
  alarmSign : Nat
  statusSign : Nat
deriving DecidableEq, Repr

/-- Modelled from the spec: 0x8001 platform universal ack. -/
structure Msg8001 where
  header : MsgHeader
  answerSerialNumber : Nat
  answerMessageID : Nat
  result : Nat
deriving DecidableEq, Repr

/-- Modelled from the spec: 0x8100 register ack (answer serial, result,
auth code). -/
structure Msg8100 where
  header : MsgHeader
  answerSerialNumber : Nat
  result : Nat
  authCode : Bytes
deriving DecidableEq, Repr

/-- Modelled from the spec: decode of the 0x0001 body — answer serial word,
answer msg-id word, result byte. -/
def Msg0001.Decode (packet : PacketData) : Msg0001 :=
  { header := packet.header
    answerSerialNumber := readWord packet.body 0
    answerMessageID := readWord packet.body 2
    result := readByteAt packet.body 4 }

/-- Modelled from the spec: decode of the empty 0x0002 body. -/
def Msg0002.Decode (packet : PacketData) : Msg0002 :=
  { header := packet.header }

/-- Modelled from the spec: decode of the empty 0x0003 body. -/
def Msg0003.Decode (packet : PacketData) : Msg0003 :=
  { header := packet.header }

/-- Modelled from the spec: decode of the 0x0102 body — the auth code
bytes. -/
def Msg0102.Decode (packet : PacketData) : Msg0102 :=
  { header := packet.header
    authCode := packet.body
    imei := []
    softwareVersion := [] }

/-- Modelled from the spec: decode of the 0x0200 body — alarm-sign dword at
offset 0, status-sign dword at offset 4. -/
def Msg0200.Decode (packet : PacketData) : Msg0200 :=
  { header := packet.header
    alarmSign := ((readWord packet.body 0) * 65536 + readWord packet.body 2)
    statusSign := ((readWord packet.body 4) * 65536 + readWord packet.body 6) }

/-- Modelled from the spec: decode of the 0x8001 body. -/
def Msg8001.Decode (packet : PacketData) : Msg8001 :=
  { header := packet.header
    answerSerialNumber := readWord packet.body 0
    answerMessageID := readWord packet.body 2
    result := readByteAt packet.body 4 }

/-- Modelled from the spec: decode of the 0x8100 body — answer serial word,
result byte, auth code remainder. -/
def Msg8100.Decode (packet : PacketData) : Msg8100 :=
  { header := packet.header
    answerSerialNumber := readWord packet.body 0
    result := readByteAt packet.body 2
    authCode := packet.body.drop 3 }

/-- Modelled from the spec: `Msg8001.GenOutgoing` — the reply copies the
ack fields (answered serial and msg id) from the inbound header, with
result defaulting to success. -/
def Msg8001.genOutgoing (inHeader : MsgHeader) : Msg8001 :=
  { header := { inHeader with msgID := 0x8001 }
    answerSerialNumber := inHeader.serialNumber
    answerMessageID := inHeader.msgID
    result := ResultSuccess }

/-- Modelled from the spec: `Msg8100.GenOutgoing` — the register ack echoes
the inbound serial, with result defaulting to success. -/
def Msg8100.genOutgoing (inHeader : MsgHeader) : Msg8100 :=
  { header := { inHeader with msgID := 0x8100 }
    answerSerialNumber := inHeader.serialNumber
    result := ResultSuccess
    authCode := [] }

/-- Modelled from the spec: the client-side 0x0102 built as a reply to a
0x8100 register ack. -/
def Msg0102.genOutgoing (inHeader : MsgHeader) : Msg0102 :=
  { header := { inHeader with msgID := 0x0102 }
    authCode := []
    imei := []
    softwareVersion := [] }

/-! ## Handlers, translated from `msg_processor.go`

Each Go handler mutates the global caches and the outgoing payload held in
its `ProcessData` and returns an error value.  The embedding passes the
state and the outgoing payload explicitly and returns the updated state,
the updated outgoing payload, and the `Option GoErr` result. -/

/-- `processMsg0002` (heartbeat): look up the device by the header phone
number; absence is a wrapped `DeviceNotFound`; otherwise re-put the device
(TTL refresh). -/
def processMsg0002 (st : ServerState) (m : Msg0002) (out : Msg8001) :
    ServerState × Msg8001 × Option GoErr :=
  match st.getDeviceByPhone m.header.phoneNumber with
  | none => (st, out, some (.wrapped (.base .errDeviceNotFound)))
  | some device => (st.cacheDevice device, out, none)

/-- `processMsg0003` (logout): look up the device; absence is a wrapped
`DeviceNotFound`; otherwise cancel the keep-alive timer and delete the
device from the cache. -/
def processMsg0003 (st : ServerState) (m : Msg0003) (out : Msg8001) :
    ServerState × Msg8001 × Option GoErr :=
  match st.getDeviceByPhone m.header.phoneNumber with
  | none => (st, out, some (.wrapped (.base .errDeviceNotFound)))
  | some device =>
    let st := st.timerCancel device.phoneNumber
    let st := st.delDeviceByPhone device.phoneNumber
    (st, out, none)

/-- `processMsg0100` (register): plate-index check first, then phone-index
check, else create the device (status offline, keepalive 60 s, transport
and connection from the session), fill the reply's auth code, put the
device and register its keep-alive timer. -/
def processMsg0100 (sess : Session) (st : ServerState) (m : Msg0100) (out : Msg8100) :
    ServerState × Msg8100 × Option GoErr :=
  if st.hasPlate m.plateNumber then
    (st, { out with result := ResCarAlreadyRegister }, none)
  else if st.hasPhone m.header.phoneNumber then
    (st, { out with result := ResDeviceAlreadyRegister }, none)
  else
    let device : Device :=
      { id := m.deviceID
        plateNumber := m.plateNumber
        phoneNumber := m.header.phoneNumber
        sessionID := sess.id
        transProto := sess.transProto
        conn := sess.conn
        keepalive := 60
        status := .offline
        imei := []
        softwareVersion := [] }
    let out := { out with authCode := genAuthCode device }
    let st := st.cacheDevice device
    let st := st.timerRegister device.phoneNumber
    (st, out, none)

/-- `processMsg0102` (authenticate): look up the device; absence is a
wrapped `DeviceNotFound`.  On an auth-code mismatch set the reply result to
failure, cancel the timer and delete the device; on a match set the device
online and re-put it.  Both branches return a nil error. -/
def processMsg0102 (st : ServerState) (m : Msg0102) (out : Msg8001) :
    ServerState × Msg8001 × Option GoErr :=
  match st.getDeviceByPhone m.header.phoneNumber with
  | none => (st, out, some (.wrapped (.base .errDeviceNotFound)))
  | some device =>
    if m.authCode ≠ genAuthCode device then
      let out := { out with result := ResultFail }
      let st := st.timerCancel device.phoneNumber
      let st := st.delDeviceByPhone device.phoneNumber
      (st, out, none)
    else
      let st := st.cacheDevice { device with status := .online }
      (st, out, none)

/-- `handleMsg0200` (location report): look up the device; absence is a
wrapped `DeviceNotFound`.  Decode the status-sign word; if ACC is 0 set the
device sleeping and re-put it.  The source then writes the fix into
`gisCache.GetGisRingByPhone(device.ID)` — the argument is the device ID,
not the phone number — and the embedding keys the write accordingly. -/
def handleMsg0200 (st : ServerState) (m : Msg0200) (out : Msg8001) :
    ServerState × Msg8001 × Option GoErr :=
  match st.getDeviceByPhone m.header.phoneNumber with
  | none => (st, out, some (.wrapped (.base .errDeviceNotFound)))
  | some device =>
    let gis := GISMeta.decode m.statusSign
    let st :=
      if gis.accStatus == 0 then st.cacheDevice { device with status := .sleeping }
      else st
    let st := st.gisWrite device.id gis
    (st, out, none)

/-- `processMsg8100` (register ack, client side): look up the device;
absence returns `ErrActiveClose` unwrapped; otherwise fill the outgoing
0x0102 with the recomputed auth code, imei and software version. -/
def processMsg8100 (st : ServerState) (m : Msg8100) (out : Msg0102) :
    ServerState × Msg0102 × Option GoErr :=
  match st.getDeviceByPhone m.header.phoneNumber with
  | none => (st, out, some (.base .errActiveClose))
  | some device =>
    let out := { out with
                 authCode := genAuthCode device
                 imei := device.imei
                 softwareVersion := device.softwareVersion }
    (st, out, none)

/-! ## The dispatcher (`Process`) -/

/-- The decoded inbound payload variants of the dispatch table. -/
inductive Incoming where
  | i0001 (m : Msg0001)
  | i0002 (m : Msg0002)
  | i0003 (m : Msg0003)
  | i0100 (m : Msg0100)
  | i0102 (m : Msg0102)
  | i0200 (m : Msg0200)
  | i8001 (m : Msg8001)
  | i8100 (m : Msg8100)
deriving DecidableEq, Repr

/-- The outbound payload variants of the dispatch table. -/
inductive Outgoing where
  | o8001 (m : Msg8001)
  | o8100 (m : Msg8100)
  | o0102 (m : Msg0102)
deriving DecidableEq, Repr

/-- `model.ProcessData`: the inbound payload and the optional outbound
payload of one dispatch. -/
structure ProcessData where
  incoming : Incoming
  outgoing : Option Outgoing
deriving DecidableEq, Repr

/-- Outcome of running a Go computation that may hit a runtime nil-pointer
dereference. -/
inductive GoRun (α : Type) where
  | nilDeref
  | done (a : α)
deriving DecidableEq, Repr

/-- The set of message ids with an entry in `initProcessOption`. -/
def processOptionIDs : List Nat :=
  [0x0001, 0x0002, 0x0003, 0x0100, 0x0102, 0x0200, 0x8001, 0x8100]

/-- `JT808MsgProcessor.Process`, translated from the source.  `options` is
a `map[uint16]*action`; for a message id with no entry the indexing yields
a nil `*action` and the field selection `.genData` on line 112 dereferences
it, so the function panics (`GoRun.nilDeref`) before the
`genDataFn == nil` guard that would return `ErrMsgIDNotSupportted` can
run.  For present entries: decode the inbound payload (wrap a decode
failure), return `(nil, nil)` when the descriptor has no outbound
constructor, otherwise generate the outgoing payload, run the handler, and
wrap any handler error. -/
def Process (sess : Session) (st : ServerState) (pkt : PacketData) :
    GoRun (ServerState × Option ProcessData × Option GoErr) :=
  let msgID := pkt.header.msgID
  if msgID = 0x0001 then
    let _in := Msg0001.Decode pkt
    .done (st, none, none)
  else if msgID = 0x0002 then
    let i := Msg0002.Decode pkt
    let out := Msg8001.genOutgoing i.header
    let r := processMsg0002 st i out
    let data : ProcessData := { incoming := .i0002 i, outgoing := some (.o8001 r.2.1) }
    match r.2.2 with
    | some e => .done (r.1, some data, some (.wrapped e))
    | none => .done (r.1, some data, none)
  else if msgID = 0x0003 then
    let i := Msg0003.Decode pkt
    let out := Msg8001.genOutgoing i.header
    let r := processMsg0003 st i out
    let data : ProcessData := { incoming := .i0003 i, outgoing := some (.o8001 r.2.1) }
    match r.2.2 with
    | some e => .done (r.1, some data, some (.wrapped e))
    | none => .done (r.1, some data, none)
  else if msgID = 0x0100 then
    match Msg0100.Decode pkt with
    | .error e => .done (st, none, some (.wrapped e))
    | .ok i =>
      let out := Msg8100.genOutgoing i.header
      let r := processMsg0100 sess st i out
      let data : ProcessData := { incoming := .i0100 i, outgoing := some (.o8100 r.2.1) }
      match r.2.2 with
      | some e => .done (r.1, some data, some (.wrapped e))
      | none => .done (r.1, some data, none)
  else if msgID = 0x0102 then
    let i := Msg0102.Decode pkt
    let out := Msg8001.genOutgoing i.header
    let r := processMsg0102 st i out
    let data : ProcessData := { incoming := .i0102 i, outgoing := some (.o8001 r.2.1) }
    match r.2.2 with
    | some e => .done (r.1, some data, some (.wrapped e))
    | none => .done (r.1, some data, none)
  else if msgID = 0x0200 then
    let i := Msg0200.Decode pkt
    let out := Msg8001.genOutgoing i.header
    let r := handleMsg0200 st i out
    let data : ProcessData := { incoming := .i0200 i, outgoing := some (.o8001 r.2.1) }
    match r.2.2 with
    | some e => .done (r.1, some data, some (.wrapped e))
    | none => .done (r.1, some data, none)
  else if msgID = 0x8001 then
    let _in := Msg8001.Decode pkt
    .done (st, none, none)
  else if msgID = 0x8100 then
    let i := Msg8100.Decode pkt
    let out := Msg0102.genOutgoing i.header
    let r := processMsg8100 st i out
    let data : ProcessData := { incoming := .i8100 i, outgoing := some (.o0102 r.2.1) }
    match r.2.2 with
    | some e => .done (r.1, some data, some (.wrapped e))
    | none => .done (r.1, some data, none)
  else
    .nilDeref

/-! ## Handler invocations as a step relation

One invocation of a handler from the dispatch table, with the inputs the
handler consumes; used to reason about all reachable states. -/

/-- One handler invocation of the dispatch table, with its inputs. -/
inductive HandlerInput where
  | h0002 (m : Msg0002) (out : Msg8001)
  | h0003 (m : Msg0003) (out : Msg8001)
  | h0100 (sess : Session) (m : Msg0100) (out : Msg8100)
  | h0102 (m : Msg0102) (out : Msg8001)
  | h0200 (m : Msg0200) (out : Msg8001)
  | h8100 (m : Msg8100) (out : Msg0102)
deriving Repr

/-- The header phone number of a handler invocation's inbound message. -/
def HandlerInput.phone : HandlerInput → Bytes
  | .h0002 m _ => m.header.phoneNumber
  | .h0003 m _ => m.header.phoneNumber
  | .h0100 _ m _ => m.header.phoneNumber
  | .h0102 m _ => m.header.phoneNumber
  | .h0200 m _ => m.header.phoneNumber
  | .h8100 m _ => m.header.phoneNumber

/-- Whether the invocation is one of the handlers that looks the device up
and fails with `DeviceNotFound` on absence (0x0002, 0x0003, 0x0102,
0x0200). -/
def HandlerInput.requiresDevice : HandlerInput → Bool
  | .h0002 _ _ => true
  | .h0003 _ _ => true
  | .h0100 _ _ _ => false
  | .h0102 _ _ => true
  | .h0200 _ _ => true
  | .h8100 _ _ => false

/-- Run one handler invocation: the state after it completes and the error
it returns. -/
def stepHandler (st : ServerState) : HandlerInput → ServerState × Option GoErr
  | .h0002 m out => let r := processMsg0002 st m out; (r.1, r.2.2)
  | .h0003 m out => let r := processMsg0003 st m out; (r.1, r.2.2)
  | .h0100 sess m out => let r := processMsg0100 sess st m out; (r.1, r.2.2)
  | .h0102 m out => let r := processMsg0102 st m out; (r.1, r.2.2)
  | .h0200 m out => let r := handleMsg0200 st m out; (r.1, r.2.2)
  | .h8100 m out => let r := processMsg8100 st m out; (r.1, r.2.2)

/-- The state after a sequence of handler invocations starting from the
empty registry, empty timer set and empty GIS cache. -/
def runHandlers (inputs : List HandlerInput) : ServerState :=
  inputs.foldl (fun st i => (stepHandler st i).1) emptyState

/-- The keep-alive/registry invariant: the timer has an entry for a phone
number iff the registry has a device for it. -/
def TimerInv (st : ServerState) : Prop :=
  ∀ p : Bytes, st.timerHas p = st.hasPhone p

/-! ## Field widths and well-formedness for the 0x0100 round trip -/

/-- Manufacturer-id field width per protocol revision. -/
def manuWidth : VersionType → Nat
  | .Version2019 => 11
  | .Version2013 => 5
  | .Version2011 => 5

/-- Device-model field width per protocol revision. -/
def modeWidth : VersionType → Nat
  | .Version2019 => 30
  | .Version2013 => 20
  | .Version2011 => 8

/-- Device-id field width per protocol revision. -/
def idWidth : VersionType → Nat
  | .Version2019 => 30
  | .Version2013 => 7
  | .Version2011 => 7

/-- A NUL-free ASCII byte string. -/
def asciiNulFree (s : Bytes) : Prop :=
  0 ∉ s ∧ ∀ b ∈ s, b < 128

instance (s : Bytes) : Decidable (asciiNulFree s) := by
  unfold asciiNulFree; infer_instance

/-! ## Concrete fixtures used by witnesses and counterexamples -/

/-- A concrete session. -/
def sess0 : Session := { id := [115, 48], transProto := .tcp, conn := 5 }

/-- A concrete header with a given message id, body length and version. -/
def mkHeader (msgID blen : Nat) (ver : VersionType) : MsgHeader :=
  { msgID := msgID, attr := { bodyLength := blen, versionDesc := ver },
    phoneNumber := [49, 50, 51], serialNumber := 7 }

/-- A packet with an unsupported message id (0x0700). -/
def pkt0700 : PacketData := { header := mkHeader 0x0700 0 .Version2013, body := [] }

/-- A 0x0001 packet (terminal universal ack). -/
def pkt0001 : PacketData :=
  { header := mkHeader 0x0001 5 .Version2013, body := [0, 7, 0x80, 0x01, 0] }

/-- A 0x8001 packet (platform universal ack). -/
def pkt8001 : PacketData :=
  { header := mkHeader 0x8001 5 .Version2013, body := [0, 7, 0, 2, 0] }

/-- Body of a 2013 register message whose remaining length after
province+city is 21 ≤ 33: manufacturer "ABCDE", model "M" in an 8-byte
field, id "DEV0001", plate color 1, no plate. -/
def bodyShort2013 : Bytes :=
  [0, 44, 1, 1] ++ [65, 66, 67, 68, 69] ++ [77, 0, 0, 0, 0, 0, 0, 0] ++
  [68, 69, 86, 48, 48, 48, 49] ++ [1]

/-- The short-2013 register packet. -/
def pktShort2013 : PacketData :=
  { header := mkHeader 0x0100 25 .Version2013, body := bodyShort2013 }

/-- Body of a full 2013 register message (remaining length 36 > 33):
manufacturer "ABCDE", model "M" in a 20-byte field, id "DEV0001", plate
color 1, plate "JA1". -/
def bodyFull2013 : Bytes :=
  [0, 44, 1, 1] ++ [65, 66, 67, 68, 69] ++
  [77, 0, 0, 0, 0, 0, 0, 0, 0, 0, 0, 0, 0, 0, 0, 0, 0, 0, 0, 0] ++
  [68, 69, 86, 48, 48, 48, 49] ++ [1] ++ [74, 65, 49]

/-- The full 2013 register packet. -/
def pktFull2013 : PacketData :=
  { header := mkHeader 0x0100 40 .Version2013, body := bodyFull2013 }

/-- A concrete registered device: id "DEV", plate "JA", phone "123". -/
def dev1 : Device :=
  { id := [68, 69, 86], plateNumber := [74, 65], phoneNumber := [49, 50, 51],
    sessionID := [115, 48], transProto := .tcp, conn := 5, keepalive := 60,
    status := .offline, imei := [], softwareVersion := [] }

/-- A state holding `dev1` with its keep-alive entry. -/
def st1 : ServerState :=
  { devices := [dev1], timers := [[49, 50, 51]], gis := [] }

/-- A 0x0200 location report with the ACC bit (bit 0 of the status sign)
clear. -/
def m0200acc0 : Msg0200 :=
  { header := mkHeader 0x0200 28 .Version2013, alarmSign := 0, statusSign := 0 }

/-- A well-formed Msg0100 with a 2011-version header. -/
def x2011 : Msg0100 :=
  { header := mkHeader 0x0100 0 .Version2011,
    provinceID := 44, cityID := 257, manufacturerID := [65, 66],
    deviceMode := [77], deviceID := [68], plateColor := 1,
    plateNumber := [74, 65] }

/-- A well-formed Msg0100 with a 2013-version header and an empty plate
number. -/
def x2013e : Msg0100 :=
  { header := mkHeader 0x0100 0 .Version2013,
    provinceID := 44, cityID := 257, manufacturerID := [65, 66, 67, 68, 69],
    deviceMode := [77], deviceID := [68, 69, 86, 48, 48, 48, 49],
    plateColor := 1, plateNumber := [] }

/-- A well-formed Msg0100 with a 2013-version header and plate "JA1". -/
def x2013 : Msg0100 := { x2013e with plateNumber := [74, 65, 49] }

/-- A register message matching `dev1`-style identity, used to drive
`processMsg0100` concretely. -/
def msgReg : Msg0100 :=
  { header := mkHeader 0x0100 40 .Version2013,
    provinceID := 44, cityID := 257, manufacturerID := [65, 66, 67, 68, 69],
    deviceMode := [77], deviceID := [68, 69, 86], plateColor := 1,
    plateNumber := [74, 65] }

/-- An empty 0x8100 reply template. -/
def out8100z : Msg8100 :=
  { header := mkHeader 0x8100 0 .Version2013, answerSerialNumber := 0,
    result := 0, authCode := [] }

/-- An empty 0x8001 reply template. -/
def out8001z : Msg8001 :=
  { header := mkHeader 0x8001 0 .Version2013, answerSerialNumber := 0,
    answerMessageID := 0, result := 0 }

/-- A 0x0102 authenticate message carrying the wrong auth code "0". -/
def m0102bad : Msg0102 :=
  { header := mkHeader 0x0102 1 .Version2013, authCode := [48],
    imei := [], softwareVersion := [] }

/-- The 0x0102 packet carrying the wrong auth code "0". -/
def pkt0102bad : PacketData :=
  { header := mkHeader 0x0102 1 .Version2013, body := [48] }

/-- A heartbeat message from phone "123". -/
def m0002a : Msg0002 := { header := mkHeader 0x0002 0 .Version2013 }

/-- The device record that `processMsg0100` creates on a successful
registration (named so it can appear in statements). -/
def mkRegisteredDevice (sess : Session) (m : Msg0100) : Device :=
  { id := m.deviceID, plateNumber := m.plateNumber,
    phoneNumber := m.header.phoneNumber, sessionID := sess.id,
    transProto := sess.transProto, conn := sess.conn, keepalive := 60,
    status := .offline, imei := [], softwareVersion := [] }

/-! ## Helper lemmas: codec -/

theorem padTo_length (n : Nat) (s : Bytes) (h : s.length ≤ n) :
    (padTo n s).length = n := by
  simp [padTo]
  omega

theorem dropWhile_zero_replicate (k : Nat) (t : Bytes) :
    (List.replicate k 0 ++ t).dropWhile (fun b => b == 0) =
      t.dropWhile (fun b => b == 0) := by
  induction k with
  | zero => simp
  | succ k ih => simp [List.replicate_succ, List.dropWhile_cons, ih]

theorem dropWhile_zero_of_not_mem (t : Bytes) (h : (0 : Nat) ∉ t) :
    t.dropWhile (fun b => b == 0) = t := by
  cases t with
  | nil => rfl
  | cons x xs =>
    have hx : x ≠ 0 := by
      intro hx0
      exact h (by simp [hx0])
    simp [List.dropWhile_cons, hx]

theorem trimRightNul_padTo (n : Nat) (s : Bytes) (h : (0 : Nat) ∉ s) :
    trimRightNul (padTo n s) = s := by
  have h0 : (0 : Nat) ∉ s.reverse := by simpa using h
  simp [trimRightNul, padTo, List.reverse_append, List.reverse_replicate,
        dropWhile_zero_replicate, dropWhile_zero_of_not_mem _ h0]

theorem readWord_writeWord (v : Nat) (rest : Bytes) (h : v < 65536) :
    readWord (writeWord v ++ rest) 0 = v := by
  simp [readWord, writeWord]
  omega

theorem readWord_writeWord_two (a c : Nat) (rest : Bytes) (h : c < 65536) :
    readWord (writeWord a ++ (writeWord c ++ rest)) 2 = c := by
  simp [readWord, writeWord]
  omega

theorem readStr_pre (pre seg suf : Bytes) (n : Nat) (hpre : pre.length = n)
    (m : Nat) (hseg : seg.length = m) :
    readStr (pre ++ (seg ++ suf)) n m = seg := by
  simp [readStr, List.drop_left' hpre, List.take_left' hseg]

theorem readByteAt_pre (pre : Bytes) (b : Nat) (suf : Bytes) (n : Nat)
    (hpre : pre.length = n) :
    readByteAt (pre ++ (b :: suf)) n = b := by
  simp [readByteAt, List.drop_left' hpre]

theorem drop_pre (pre suf : Bytes) (n : Nat) (hpre : pre.length = n) :
    (pre ++ suf).drop n = suf :=
  List.drop_left' hpre

/-! ## Helper lemmas: registry, timer -/

theorem getDeviceByPhone_phone {st : ServerState} {p : Bytes} {d : Device}
    (h : st.getDeviceByPhone p = some d) : d.phoneNumber = p := by
  have := List.find?_some h
  simpa using this

theorem hasPhone_of_get {st : ServerState} {p : Bytes} {d : Device}
    (h : st.getDeviceByPhone p = some d) : st.hasPhone p = true := by
  simp [ServerState.hasPhone, h]

theorem getDeviceByPhone_eq_none {st : ServerState} {p : Bytes}
    (h : st.hasPhone p = false) : st.getDeviceByPhone p = none := by
  cases hg : st.getDeviceByPhone p with
  | none => rfl
  | some d => rw [ServerState.hasPhone, hg] at h; simp at h

theorem getDeviceByPhone_cacheDevice_self (st : ServerState) (d : Device) :
    (st.cacheDevice d).getDeviceByPhone d.phoneNumber = some d := by
  rw [ServerState.cacheDevice, ServerState.getDeviceByPhone]
  exact List.find?_cons_of_pos _ (by simp)

theorem bool_eq_of_iff {a b : Bool} (h : a = true ↔ b = true) : a = b := by
  cases a <;> cases b <;> simp_all

theorem hasPhone_true_iff (st : ServerState) (q : Bytes) :
    st.hasPhone q = true ↔ ∃ d ∈ st.devices, d.phoneNumber = q := by
  simp [ServerState.hasPhone, ServerState.getDeviceByPhone, List.find?_isSome]

theorem timerHas_true_iff (st : ServerState) (q : Bytes) :
    st.timerHas q = true ↔ q ∈ st.timers := by
  rw [ServerState.timerHas, List.any_eq_true]
  constructor
  · rintro ⟨x, hx, hq⟩
    simp at hq
    exact hq ▸ hx
  · intro hq
    exact ⟨q, hq, by simp⟩

theorem hasPhone_cacheDevice (st : ServerState) (d : Device) (q : Bytes) :
    (st.cacheDevice d).hasPhone q =
      if q = d.phoneNumber then true else st.hasPhone q := by
  by_cases h : q = d.phoneNumber
  · subst h
    simp only [if_pos rfl]
    rw [ServerState.hasPhone, getDeviceByPhone_cacheDevice_self]
    rfl
  · rw [if_neg h]
    apply bool_eq_of_iff
    rw [hasPhone_true_iff, hasPhone_true_iff]
    constructor
    · rintro ⟨x, hx, hq⟩
      rcases List.mem_cons.1 hx with rfl | hx'
      · exact absurd hq.symm h
      · exact ⟨x, (List.mem_filter.1 hx').1, hq⟩
    · rintro ⟨x, hx, hq⟩
      refine ⟨x, List.mem_cons_of_mem _ (List.mem_filter.2 ⟨hx, ?_⟩), hq⟩
      simp [hq]
      exact h

theorem hasPhone_delDeviceByPhone (st : ServerState) (p q : Bytes) :
    (st.delDeviceByPhone p).hasPhone q =
      if q = p then false else st.hasPhone q := by
  by_cases h : q = p
  · subst h
    rw [if_pos rfl]
    cases hh : (st.delDeviceByPhone q).hasPhone q with
    | false => rfl
    | true =>
      obtain ⟨x, hx, hq⟩ := (hasPhone_true_iff _ q).1 hh
      have := (List.mem_filter.1 hx).2
      simp [hq] at this
  · rw [if_neg h]
    apply bool_eq_of_iff
    rw [hasPhone_true_iff, hasPhone_true_iff]
    constructor
    · rintro ⟨x, hx, hq⟩
      exact ⟨x, (List.mem_filter.1 hx).1, hq⟩
    · rintro ⟨x, hx, hq⟩
      refine ⟨x, List.mem_filter.2 ⟨hx, ?_⟩, hq⟩
      simp
      intro hc
      exact h ((hq.symm.trans hc))

theorem timerHas_timerCancel (st : ServerState) (p q : Bytes) :
    (st.timerCancel p).timerHas q = if q = p then false else st.timerHas q := by
  by_cases h : q = p
  · subst h
    rw [if_pos rfl]
    cases hh : (st.timerCancel q).timerHas q with
    | false => rfl
    | true =>
      have hx := (timerHas_true_iff _ q).1 hh
      have := (List.mem_filter.1 hx).2
      simp at this
  · rw [if_neg h]
    apply bool_eq_of_iff
    rw [timerHas_true_iff, timerHas_true_iff]
    constructor
    · intro hx
      exact (List.mem_filter.1 hx).1
    · intro hx
      refine List.mem_filter.2 ⟨hx, ?_⟩
      simp [h]

theorem timerHas_timerRegister (st : ServerState) (p q : Bytes) :
    (st.timerRegister p).timerHas q =
      if p = q then true else st.timerHas q := by
  by_cases h : p = q <;> simp [ServerState.timerRegister, ServerState.timerHas, h]

theorem timerHas_cacheDevice (st : ServerState) (d : Device) (q : Bytes) :
    (st.cacheDevice d).timerHas q = st.timerHas q := rfl

theorem timerHas_delDeviceByPhone (st : ServerState) (p q : Bytes) :
    (st.delDeviceByPhone p).timerHas q = st.timerHas q := rfl

theorem hasPhone_timerRegister (st : ServerState) (p q : Bytes) :
    (st.timerRegister p).hasPhone q = st.hasPhone q := rfl

theorem hasPhone_timerCancel (st : ServerState) (p q : Bytes) :
    (st.timerCancel p).hasPhone q = st.hasPhone q := rfl

theorem hasPhone_gisWrite (st : ServerState) (k : Bytes) (g : GISMeta) (q : Bytes) :
    (st.gisWrite k g).hasPhone q = st.hasPhone q := rfl

theorem timerHas_gisWrite (st : ServerState) (k : Bytes) (g : GISMeta) (q : Bytes) :
    (st.gisWrite k g).timerHas q = st.timerHas q := rfl

/-! ## Claim theorems -/

/-- Claim C1: for a packet whose header message id has no entry in the
dispatch table (for example 0x0700), `Process` does not return
`ErrMsgIDNotSupportted`: indexing the `map[uint16]*action` yields a nil
`*action` and the field selection `.genData` on it dereferences a nil
pointer, so the call panics before the `genDataFn == nil` guard runs.  No
registry, timer or GIS mutation happens and no reply and no error value is
produced — the call crashes instead of returning the documented error. -/
theorem process_unsupported_msgid_panics (sess : Session) (st : ServerState)
    (pkt : PacketData) (h : pkt.header.msgID ∉ processOptionIDs) :
    Process sess st pkt = .nilDeref := by
  simp only [processOptionIDs, List.mem_cons, List.not_mem_nil, or_false, not_or] at h
  obtain ⟨h1, h2, h3, h4, h5, h6, h7, h8⟩ := h
  simp [Process, h1, h2, h3, h4, h5, h6, h7, h8]

/-- Witness for C1: message id 0x0700 is not in the table and the dispatch
crashes with a nil dereference. -/
theorem process_unsupported_msgid_panics_witness :
    Process sess0 emptyState pkt0700 = .nilDeref :=
  process_unsupported_msgid_panics sess0 emptyState pkt0700 (by decide)

/-- Claim C2: on a 2013-version 0x0100 packet whose remaining body length
after province and city is not above `5+20+7+1`, `Decode` does read the
device-model field with length 8 (first conjunct: model "M" and id
"DEV0001" are recovered from the 8-wide layout), but the packet header's
version descriptor is NOT rewritten to 2011 — it stays `Version2013`,
because the source line `ver = &[]VersionType{Version2011}[0]` reassigns
the local pointer instead of writing through it.  The second conjunct shows
the long-body case reading the model field with length 20. -/
theorem msg0100_decode_2013_boundary :
    (Msg0100.Decode pktShort2013 = .ok
      { header := mkHeader 0x0100 25 .Version2013, provinceID := 44,
        cityID := 257, manufacturerID := [65, 66, 67, 68, 69],
        deviceMode := [77], deviceID := [68, 69, 86, 48, 48, 48, 49],
        plateColor := 1, plateNumber := [] }) ∧
    ((Msg0100.Decode pktShort2013).map
        (fun m => m.header.attr.versionDesc) = .ok VersionType.Version2013) ∧
    (Msg0100.Decode pktFull2013 = .ok
      { header := mkHeader 0x0100 40 .Version2013, provinceID := 44,
        cityID := 257, manufacturerID := [65, 66, 67, 68, 69],
        deviceMode := [77], deviceID := [68, 69, 86, 48, 48, 48, 49],
        plateColor := 1, plateNumber := [74, 65, 49] }) := by
  refine ⟨rfl, rfl, rfl⟩

/-- Claim C3: on a 0x0200 report with the ACC bit clear from a registered
device whose device id differs from its phone number, the handler does set
the device sleeping, but the fix is appended to the GIS ring under the
DEVICE ID (the source passes `device.ID` to `GetGisRingByPhone`), so the
ring under the device's phone number stays empty while the ring under the
id grows to length 1. -/
theorem handleMsg0200_ring_keyed_by_device_id :
    ((handleMsg0200 st1 m0200acc0 out8001z).1.getDeviceByPhone
        [49, 50, 51]).map Device.status = some DeviceStatus.sleeping ∧
    ((handleMsg0200 st1 m0200acc0 out8001z).1.gisRing [49, 50, 51]).length = 0 ∧
    ((handleMsg0200 st1 m0200acc0 out8001z).1.gisRing [68, 69, 86]).length = 1 ∧
    (handleMsg0200 st1 m0200acc0 out8001z).2.2 = none := by
  refine ⟨by decide, by decide, by decide, by decide⟩

/-- Counterexample to C4: on a 0x0001 packet (and likewise 0x8001) the
dispatcher returns a nil `ProcessData` — the `data.Outgoing == nil` branch
is `return nil, nil`, discarding the decoded inbound payload — not the
process data the claim describes. -/
theorem process_ack_counterexample :
    Process sess0 st1 pkt0001 = .done (st1, none, none) ∧
    Process sess0 st1 pkt8001 = .done (st1, none, none) := by
  refine ⟨by decide, by decide⟩

/-- Claim C4 as amended: for packets whose descriptor constructs no
outbound payload (ids 0x0001 and 0x8001), `Process` returns a nil
`ProcessData` together with a nil error, leaving the state unchanged. -/
theorem process_no_outgoing_returns_nil (sess : Session) (st : ServerState)
    (pkt : PacketData)
    (h : pkt.header.msgID = 0x0001 ∨ pkt.header.msgID = 0x8001) :
    Process sess st pkt = .done (st, none, none) := by
  rcases h with h | h <;> simp [Process, h]

/-- Witness for the amended C4 at a concrete 0x8001 packet. -/
theorem process_no_outgoing_returns_nil_witness :
    Process sess0 emptyState pkt8001 = .done (emptyState, none, none) :=
  process_no_outgoing_returns_nil sess0 emptyState pkt8001 (Or.inr rfl)

/-- Claim C6: the register handler checks the plate index first
(`ResCarAlreadyRegister` wins even if the phone is also registered, since
the first branch does not look at the phone), then the phone index
(`ResDeviceAlreadyRegister`), and otherwise creates a device with status
offline and keepalive 60 s from the session's transport and connection,
fills the reply's auth code, puts the device, and registers its keep-alive
timer. -/
theorem processMsg0100_registration (sess : Session) (st : ServerState)
    (m : Msg0100) (out : Msg8100) :
    (st.hasPlate m.plateNumber = true →
      processMsg0100 sess st m out =
        (st, { out with result := ResCarAlreadyRegister }, none)) ∧
    (st.hasPlate m.plateNumber = false →
      st.hasPhone m.header.phoneNumber = true →
      processMsg0100 sess st m out =
        (st, { out with result := ResDeviceAlreadyRegister }, none)) ∧
    (st.hasPlate m.plateNumber = false →
      st.hasPhone m.header.phoneNumber = false →
      ∃ d : Device,
        d.id = m.deviceID ∧ d.plateNumber = m.plateNumber ∧
        d.phoneNumber = m.header.phoneNumber ∧ d.sessionID = sess.id ∧
        d.transProto = sess.transProto ∧ d.conn = sess.conn ∧
        d.keepalive = 60 ∧ d.status = DeviceStatus.offline ∧
        processMsg0100 sess st m out =
          ((st.cacheDevice d).timerRegister d.phoneNumber,
            { out with authCode := genAuthCode d }, none) ∧
        (processMsg0100 sess st m out).1.getDeviceByPhone
            m.header.phoneNumber = some d ∧
        (processMsg0100 sess st m out).1.timerHas
            m.header.phoneNumber = true) := by
  refine ⟨?_, ?_, ?_⟩
  · intro h
    simp [processMsg0100, h]
  · intro h1 h2
    simp [processMsg0100, h1, h2]
  · intro h1 h2
    have heq : processMsg0100 sess st m out =
        ((st.cacheDevice (mkRegisteredDevice sess m)).timerRegister
            m.header.phoneNumber,
          { out with authCode := genAuthCode (mkRegisteredDevice sess m) },
          none) := by
      simp [processMsg0100, mkRegisteredDevice, h1, h2]
    refine ⟨mkRegisteredDevice sess m, rfl, rfl, rfl, rfl, rfl, rfl, rfl, rfl,
      heq, ?_, ?_⟩
    · rw [heq]
      exact getDeviceByPhone_cacheDevice_self st _
    · rw [heq]
      simp [timerHas_timerRegister]

/-- Witness for C6: registering on the empty state puts the device and its
keep-alive entry under phone "123". -/
theorem processMsg0100_registration_witness :
    (processMsg0100 sess0 emptyState msgReg out8100z).1.timerHas
        [49, 50, 51] = true ∧
    (processMsg0100 sess0 emptyState msgReg out8100z).1.hasPhone
        [49, 50, 51] = true := by
  obtain ⟨d, _, _, hph, _, _, _, _, _, heq, hget, htm⟩ :=
    (processMsg0100_registration sess0 emptyState msgReg out8100z).2.2
      (by decide) (by decide)
  exact ⟨htm, hasPhone_of_get hget⟩

/-- Claim C7: the authenticate handler recomputes the auth code as the
decimal string of the FNV-32 hash of `device_id ++ "_" ++ plate_number ++
"_" ++ phone_number` (first conjunct); on a mismatch it sets the reply to
failure, cancels the keep-alive timer and deletes the device (so the phone
no longer resolves and the timer entry is gone); on a match it sets the
device online and re-puts it. -/
theorem processMsg0102_authentication (st : ServerState) (m : Msg0102)
    (out : Msg8001) (d : Device)
    (hd : st.getDeviceByPhone m.header.phoneNumber = some d) :
    genAuthCode d = natToDecBytes
        (FNV32 (d.id ++ [0x5F] ++ d.plateNumber ++ [0x5F] ++ d.phoneNumber)) ∧
    (m.authCode ≠ genAuthCode d →
      processMsg0102 st m out =
        ((st.timerCancel d.phoneNumber).delDeviceByPhone d.phoneNumber,
          { out with result := ResultFail }, none) ∧
      (processMsg0102 st m out).1.hasPhone m.header.phoneNumber = false ∧
      (processMsg0102 st m out).1.timerHas m.header.phoneNumber = false) ∧
    (m.authCode = genAuthCode d →
      processMsg0102 st m out =
        (st.cacheDevice { d with status := DeviceStatus.online }, out, none) ∧
      (processMsg0102 st m out).1.getDeviceByPhone m.header.phoneNumber =
        some { d with status := DeviceStatus.online }) := by
  have hphone : d.phoneNumber = m.header.phoneNumber := getDeviceByPhone_phone hd
  refine ⟨rfl, ?_, ?_⟩
  · intro hne
    have heq : processMsg0102 st m out =
        ((st.timerCancel d.phoneNumber).delDeviceByPhone d.phoneNumber,
          { out with result := ResultFail }, none) := by
      simp [processMsg0102, hd, hne]
    refine ⟨heq, ?_, ?_⟩
    · rw [heq]
      show ((st.timerCancel d.phoneNumber).delDeviceByPhone
          d.phoneNumber).hasPhone m.header.phoneNumber = false
      rw [hasPhone_delDeviceByPhone]
      simp [hphone]
    · rw [heq]
      show ((st.timerCancel d.phoneNumber).delDeviceByPhone
          d.phoneNumber).timerHas m.header.phoneNumber = false
      rw [timerHas_delDeviceByPhone, timerHas_timerCancel]
      simp [hphone]
  · intro he
    have heq : processMsg0102 st m out =
        (st.cacheDevice { d with status := DeviceStatus.online }, out, none) := by
      simp [processMsg0102, hd, he]
    refine ⟨heq, ?_⟩
    rw [heq]
    have hph2 : ({ d with status := DeviceStatus.online } : Device).phoneNumber
        = m.header.phoneNumber := hphone
    rw [← hph2]
    exact getDeviceByPhone_cacheDevice_self st _

/-- Witness for C7: presenting auth code "0" for `dev1` fails, the reply
carries the failure result and the device and timer entry are removed. -/
theorem processMsg0102_authentication_witness :
    (processMsg0102 st1 m0102bad out8001z).1.hasPhone [49, 50, 51] = false ∧
    (processMsg0102 st1 m0102bad out8001z).1.timerHas [49, 50, 51] = false ∧
    (processMsg0102 st1 m0102bad out8001z).2.1.result = ResultFail := by
  obtain ⟨heq, hhp, htm⟩ :=
    (processMsg0102_authentication st1 m0102bad out8001z dev1 (by decide)).2.1
      (by decide)
  refine ⟨hhp, htm, ?_⟩
  rw [heq]

theorem stepHandler_error_shape (st : ServerState) (inp : HandlerInput)
    (e : GoErr) (he : (stepHandler st inp).2 = some e) :
    e = .wrapped (.base .errDeviceNotFound) ∨ e = .base .errActiveClose := by
  cases inp with
  | h0002 m out =>
    cases hg : st.getDeviceByPhone m.header.phoneNumber with
    | none =>
      simp [stepHandler, processMsg0002, hg] at he
      exact Or.inl he.symm
    | some d => simp [stepHandler, processMsg0002, hg] at he
  | h0003 m out =>
    cases hg : st.getDeviceByPhone m.header.phoneNumber with
    | none =>
      simp [stepHandler, processMsg0003, hg] at he
      exact Or.inl he.symm
    | some d => simp [stepHandler, processMsg0003, hg] at he
  | h0100 sess m out =>
    by_cases h1 : st.hasPlate m.plateNumber
    · simp [stepHandler, processMsg0100, h1] at he
    · by_cases h2 : st.hasPhone m.header.phoneNumber <;>
        simp [stepHandler, processMsg0100, h1, h2] at he
  | h0102 m out =>
    cases hg : st.getDeviceByPhone m.header.phoneNumber with
    | none =>
      simp [stepHandler, processMsg0102, hg] at he
      exact Or.inl he.symm
    | some d =>
      by_cases hauth : m.authCode = genAuthCode d <;>
        simp [stepHandler, processMsg0102, hg, hauth] at he
  | h0200 m out =>
    cases hg : st.getDeviceByPhone m.header.phoneNumber with
    | none =>
      simp [stepHandler, handleMsg0200, hg] at he
      exact Or.inl he.symm
    | some d =>
      by_cases hacc : (GISMeta.decode m.statusSign).accStatus == 0 <;>
        simp [stepHandler, handleMsg0200, hg, hacc] at he
  | h8100 m out =>
    cases hg : st.getDeviceByPhone m.header.phoneNumber with
    | none =>
      simp [stepHandler, processMsg8100, hg] at he
      exact Or.inr he.symm
    | some d => simp [stepHandler, processMsg8100, hg] at he

/-- Claim C9: each of the 0x0002, 0x0003, 0x0102 and 0x0200 handlers, when
the header phone number has no registry entry, leaves the whole state
(registry, timers, GIS rings) unchanged and returns an error on which
`errors.Is(·, DeviceNotFound)` holds. -/
theorem handlers_missing_device (st : ServerState) (inp : HandlerInput)
    (hreq : inp.requiresDevice = true)
    (h : st.hasPhone inp.phone = false) :
    (stepHandler st inp).1 = st ∧
    ∃ e, (stepHandler st inp).2 = some e ∧
      errorsIs e .errDeviceNotFound = true := by
  cases inp with
  | h0002 m out =>
    have hn : st.getDeviceByPhone m.header.phoneNumber = none :=
      getDeviceByPhone_eq_none h
    exact ⟨by simp [stepHandler, processMsg0002, hn],
      .wrapped (.base .errDeviceNotFound),
      by simp [stepHandler, processMsg0002, hn], rfl⟩
  | h0003 m out =>
    have hn : st.getDeviceByPhone m.header.phoneNumber = none :=
      getDeviceByPhone_eq_none h
    exact ⟨by simp [stepHandler, processMsg0003, hn],
      .wrapped (.base .errDeviceNotFound),
      by simp [stepHandler, processMsg0003, hn], rfl⟩
  | h0100 sess m out => simp [HandlerInput.requiresDevice] at hreq
  | h0102 m out =>
    have hn : st.getDeviceByPhone m.header.phoneNumber = none :=
      getDeviceByPhone_eq_none h
    exact ⟨by simp [stepHandler, processMsg0102, hn],
      .wrapped (.base .errDeviceNotFound),
      by simp [stepHandler, processMsg0102, hn], rfl⟩
  | h0200 m out =>
    have hn : st.getDeviceByPhone m.header.phoneNumber = none :=
      getDeviceByPhone_eq_none h
    exact ⟨by simp [stepHandler, handleMsg0200, hn],
      .wrapped (.base .errDeviceNotFound),
      by simp [stepHandler, handleMsg0200, hn], rfl⟩
  | h8100 m out => simp [HandlerInput.requiresDevice] at hreq

/-- Witness for C9: a heartbeat from an unknown phone on the empty state
changes nothing and yields a wrapped `DeviceNotFound`. -/
theorem handlers_missing_device_witness :
    (stepHandler emptyState (.h0002 m0002a out8001z)).1 = emptyState ∧
    ∃ e, (stepHandler emptyState (.h0002 m0002a out8001z)).2 = some e ∧
      errorsIs e .errDeviceNotFound = true :=
  handlers_missing_device emptyState (.h0002 m0002a out8001z) rfl (by decide)

/-- Claim C10: on an auth-code mismatch the 0x0102 handler returns a nil
error, so `Process` returns the process data (whose 0x8001 reply carries
the failure result) with a nil error; and no handler in the dispatch table
ever returns an error matching `ErrNotAuthorized` (second conjunct: every
handler error is a wrapped `DeviceNotFound` or `ActiveClose`). -/
theorem processMsg0102_mismatch_nil_error (sess : Session)
    (st : ServerState) (pkt : PacketData) (d : Device)
    (hid : pkt.header.msgID = 0x0102)
    (hd : st.getDeviceByPhone pkt.header.phoneNumber = some d)
    (hne : pkt.body ≠ genAuthCode d) :
    (∃ data : ProcessData,
      Process sess st pkt =
        .done ((st.timerCancel d.phoneNumber).delDeviceByPhone d.phoneNumber,
          some data, none) ∧
      data.outgoing = some (.o8001
        { Msg8001.genOutgoing pkt.header with result := ResultFail })) ∧
    (∀ (st' : ServerState) (inp : HandlerInput) (e : GoErr),
      (stepHandler st' inp).2 = some e →
        errorsIs e .errNotAuthorized = false) := by
  constructor
  · refine ⟨{ incoming := .i0102 (Msg0102.Decode pkt),
              outgoing := some (.o8001
                { Msg8001.genOutgoing pkt.header with result := ResultFail }) },
      ?_, rfl⟩
    have hbody : (Msg0102.Decode pkt).authCode = pkt.body := rfl
    have hhd : (Msg0102.Decode pkt).header = pkt.header := rfl
    simp [Process, hid, processMsg0102, Msg0102.Decode, hd, hne]
  · intro st' inp e he
    rcases stepHandler_error_shape st' inp e he with rfl | rfl <;> rfl

/-- Witness for C10: the concrete failed authentication of `dev1` returns
process data and a nil error. -/
theorem processMsg0102_mismatch_nil_error_witness :
    ∃ data : ProcessData,
      Process sess0 st1 pkt0102bad =
        .done ((st1.timerCancel dev1.phoneNumber).delDeviceByPhone
          dev1.phoneNumber, some data, none) ∧
      data.outgoing = some (.o8001
        { Msg8001.genOutgoing pkt0102bad.header with result := ResultFail }) :=
  (processMsg0102_mismatch_nil_error sess0 st1 pkt0102bad dev1 rfl (by decide)
    (by decide)).1

theorem timerInv_step (st : ServerState) (inp : HandlerInput)
    (h : TimerInv st) : TimerInv (stepHandler st inp).1 := by
  cases inp with
  | h0002 m out =>
    cases hg : st.getDeviceByPhone m.header.phoneNumber with
    | none => simpa [stepHandler, processMsg0002, hg] using h
    | some d =>
      have hph : d.phoneNumber = m.header.phoneNumber :=
        getDeviceByPhone_phone hg
      intro p
      simp only [stepHandler, processMsg0002, hg]
      rw [timerHas_cacheDevice, hasPhone_cacheDevice]
      by_cases hp : p = d.phoneNumber
      · rw [if_pos hp, h p, hp, hph]
        exact hasPhone_of_get hg
      · rw [if_neg hp]
        exact h p
  | h0003 m out =>
    cases hg : st.getDeviceByPhone m.header.phoneNumber with
    | none => simpa [stepHandler, processMsg0003, hg] using h
    | some d =>
      intro p
      simp only [stepHandler, processMsg0003, hg]
      rw [timerHas_delDeviceByPhone, timerHas_timerCancel,
        hasPhone_delDeviceByPhone, hasPhone_timerCancel]
      by_cases hp : p = d.phoneNumber
      · rw [if_pos hp, if_pos hp]
      · rw [if_neg hp, if_neg hp]
        exact h p
  | h0100 sess m out =>
    by_cases h1 : st.hasPlate m.plateNumber
    · simpa [stepHandler, processMsg0100, h1] using h
    · by_cases h2 : st.hasPhone m.header.phoneNumber
      · simpa [stepHandler, processMsg0100, h1, h2] using h
      · intro p
        simp only [stepHandler, processMsg0100, h1, h2, Bool.false_eq_true,
          if_false, eq_self_iff_true]
        rw [timerHas_timerRegister, hasPhone_timerRegister,
          hasPhone_cacheDevice]
        by_cases hp : p = m.header.phoneNumber
        · simp [hp]
        · have hp' : ¬ m.header.phoneNumber = p := fun hh => hp hh.symm
          simp [hp, hp', timerHas_cacheDevice, h p]
  | h0102 m out =>
    cases hg : st.getDeviceByPhone m.header.phoneNumber with
    | none => simpa [stepHandler, processMsg0102, hg] using h
    | some d =>
      have hph : d.phoneNumber = m.header.phoneNumber :=
        getDeviceByPhone_phone hg
      by_cases hauth : m.authCode = genAuthCode d
      · intro p
        simp only [stepHandler, processMsg0102, hg, hauth, ne_eq,
          not_true_eq_false, if_false, ite_false, if_neg]
        rw [timerHas_cacheDevice, hasPhone_cacheDevice]
        by_cases hp : p = d.phoneNumber
        · rw [if_pos hp, h p, hp, hph]
          exact hasPhone_of_get hg
        · rw [if_neg hp]
          exact h p
      · intro p
        simp only [stepHandler, processMsg0102, hg, if_pos, hauth, ne_eq,
          not_false_eq_true, ite_true]
        rw [timerHas_delDeviceByPhone, timerHas_timerCancel,
          hasPhone_delDeviceByPhone, hasPhone_timerCancel]
        by_cases hp : p = d.phoneNumber
        · rw [if_pos hp, if_pos hp]
        · rw [if_neg hp, if_neg hp]
          exact h p
  | h0200 m out =>
    cases hg : st.getDeviceByPhone m.header.phoneNumber with
    | none => simpa [stepHandler, handleMsg0200, hg] using h
    | some d =>
      have hph : d.phoneNumber = m.header.phoneNumber :=
        getDeviceByPhone_phone hg
      by_cases hacc : (GISMeta.decode m.statusSign).accStatus == 0
      · intro p
        simp only [stepHandler, handleMsg0200, hg, hacc, if_true, ite_true]
        rw [timerHas_gisWrite, hasPhone_gisWrite, timerHas_cacheDevice,
          hasPhone_cacheDevice]
        by_cases hp : p = d.phoneNumber
        · rw [if_pos hp, h p, hp, hph]
          exact hasPhone_of_get hg
        · rw [if_neg hp]
          exact h p
      · intro p
        simp only [stepHandler, handleMsg0200, hg, hacc, if_false,
          Bool.false_eq_true, ite_false]
        rw [timerHas_gisWrite, hasPhone_gisWrite]
        exact h p
  | h8100 m out =>
    cases hg : st.getDeviceByPhone m.header.phoneNumber with
    | none => simpa [stepHandler, processMsg8100, hg] using h
    | some d => simpa [stepHandler, processMsg8100, hg] using h

/-- Claim C8: starting from the empty registry and empty timer set, after
any sequence of handler invocations the keep-alive timer has an entry for
a phone number exactly when the device registry has a device for it
(0x0100 success adds both, 0x0003 and failed 0x0102 remove both, every
other handler preserves both). -/
theorem keepalive_timer_iff_registry (inputs : List HandlerInput)
    (p : Bytes) :
    (runHandlers inputs).timerHas p = (runHandlers inputs).hasPhone p := by
  have hrun : ∀ (s : ServerState), TimerInv s →
      TimerInv (inputs.foldl (fun st i => (stepHandler st i).1) s) := by
    induction inputs with
    | nil => intro s hs; exact hs
    | cons i tl ih =>
      intro s hs
      exact ih ((stepHandler s i).1) (timerInv_step s i hs)
  exact hrun emptyState (fun q => rfl) p

theorem msg0100_roundtrip_2013 (x : Msg0100)
    (hver : x.header.attr.versionDesc = VersionType.Version2013)
    (hp : x.provinceID < 65536) (hc : x.cityID < 65536)
    (hm0 : (0 : Nat) ∉ x.manufacturerID) (hml : x.manufacturerID.length ≤ 5)
    (hd0 : (0 : Nat) ∉ x.deviceMode) (hdl : x.deviceMode.length ≤ 20)
    (hi0 : (0 : Nat) ∉ x.deviceID) (hil : x.deviceID.length ≤ 7)
    (hpl : x.plateNumber ≠ []) :
    ∃ pkt y, x.Encode = .ok pkt ∧ Msg0100.Decode pkt = .ok y ∧
      y.provinceID = x.provinceID ∧ y.cityID = x.cityID ∧
      y.manufacturerID = x.manufacturerID ∧ y.deviceMode = x.deviceMode ∧
      y.deviceID = x.deviceID ∧ y.plateColor = x.plateColor ∧
      y.plateNumber = x.plateNumber := by
  have l1 : (padTo 5 x.manufacturerID).length = 5 := padTo_length _ _ hml
  have l2 : (padTo 20 x.deviceMode).length = 20 := padTo_length _ _ hdl
  have l3 : (padTo 7 x.deviceID).length = 7 := padTo_length _ _ hil
  set B : Bytes := writeWord x.provinceID ++ writeWord x.cityID ++
      padTo 5 x.manufacturerID ++ padTo 20 x.deviceMode ++
      padTo 7 x.deviceID ++ [x.plateColor] ++ x.plateNumber with hB
  have henc : x.Encode = .ok (writeHeader x.header B) := by
    rw [hB]
    simp [Msg0100.Encode, hver, gbkEncode]
  have lB : B.length = 37 + x.plateNumber.length := by
    rw [hB]
    simp [writeWord, l1, l2, l3]
    try omega
  have hBr : B = writeWord x.provinceID ++ (writeWord x.cityID ++
      (padTo 5 x.manufacturerID ++ (padTo 20 x.deviceMode ++
        (padTo 7 x.deviceID ++ ([x.plateColor] ++ x.plateNumber))))) := by
    rw [hB]
    simp [List.append_assoc]
  have hB4 : B = (writeWord x.provinceID ++ writeWord x.cityID) ++
      (padTo 5 x.manufacturerID ++ (padTo 20 x.deviceMode ++
        (padTo 7 x.deviceID ++ ([x.plateColor] ++ x.plateNumber)))) := by
    rw [hB]
    simp [List.append_assoc]
  have hB9 : B = (writeWord x.provinceID ++ writeWord x.cityID ++
      padTo 5 x.manufacturerID) ++ (padTo 20 x.deviceMode ++
        (padTo 7 x.deviceID ++ ([x.plateColor] ++ x.plateNumber))) := by
    rw [hB]
    simp [List.append_assoc]
  have hB29 : B = (writeWord x.provinceID ++ writeWord x.cityID ++
      padTo 5 x.manufacturerID ++ padTo 20 x.deviceMode) ++
      (padTo 7 x.deviceID ++ ([x.plateColor] ++ x.plateNumber)) := by
    rw [hB]
    simp [List.append_assoc]
  have hB36 : B = (writeWord x.provinceID ++ writeWord x.cityID ++
      padTo 5 x.manufacturerID ++ padTo 20 x.deviceMode ++
      padTo 7 x.deviceID) ++ (x.plateColor :: x.plateNumber) := by
    rw [hB]
    simp [List.append_assoc]
  have hB37 : B = (writeWord x.provinceID ++ writeWord x.cityID ++
      padTo 5 x.manufacturerID ++ padTo 20 x.deviceMode ++
      padTo 7 x.deviceID ++ [x.plateColor]) ++ x.plateNumber := by
    rw [hB]
  have L4 : (writeWord x.provinceID ++ writeWord x.cityID).length = 4 := by
    simp [writeWord]
  have L9 : (writeWord x.provinceID ++ writeWord x.cityID ++
      padTo 5 x.manufacturerID).length = 9 := by
    simp [writeWord, l1]
  have L29 : (writeWord x.provinceID ++ writeWord x.cityID ++
      padTo 5 x.manufacturerID ++ padTo 20 x.deviceMode).length = 29 := by
    simp [writeWord, l1, l2]
  have L36 : (writeWord x.provinceID ++ writeWord x.cityID ++
      padTo 5 x.manufacturerID ++ padTo 20 x.deviceMode ++
      padTo 7 x.deviceID).length = 36 := by
    simp [writeWord, l1, l2, l3]
  have L37 : (writeWord x.provinceID ++ writeWord x.cityID ++
      padTo 5 x.manufacturerID ++ padTo 20 x.deviceMode ++
      padTo 7 x.deviceID ++ [x.plateColor]).length = 37 := by
    simp [writeWord, l1, l2, l3]
  have e1 : readWord B 0 = x.provinceID := by
    rw [hBr]
    exact readWord_writeWord _ _ hp
  have e2 : readWord B 2 = x.cityID := by
    rw [hBr]
    exact readWord_writeWord_two _ _ _ hc
  have e3 : readStr B 4 5 = padTo 5 x.manufacturerID := by
    rw [hB4]
    exact readStr_pre _ _ _ _ L4 _ l1
  have e4 : readStr B 9 20 = padTo 20 x.deviceMode := by
    rw [hB9]
    exact readStr_pre _ _ _ _ L9 _ l2
  have e5 : readStr B 29 7 = padTo 7 x.deviceID := by
    rw [hB29]
    exact readStr_pre _ _ _ _ L29 _ l3
  have e6 : readByteAt B 36 = x.plateColor := by
    rw [hB36]
    exact readByteAt_pre _ _ _ _ L36
  have e7 : B.drop 37 = x.plateNumber := by
    rw [hB37]
    exact drop_pre _ _ _ L37
  have hn : ((B.length : Int) - 37).toNat = x.plateNumber.length := by
    rw [lB]
    omega
  have hgt : (33 : Int) < (B.length : Int) - 4 := by
    have hLp := List.length_pos.2 hpl
    rw [lB]
    omega
  refine ⟨writeHeader x.header B,
    { header := (writeHeader x.header B).header,
      provinceID := x.provinceID, cityID := x.cityID,
      manufacturerID := x.manufacturerID, deviceMode := x.deviceMode,
      deviceID := x.deviceID, plateColor := x.plateColor,
      plateNumber := x.plateNumber },
    henc, ?_, rfl, rfl, rfl, rfl, rfl, rfl, rfl⟩
  simp only [Msg0100.Decode, writeHeader, hver]
  rw [if_neg (by decide : ¬ (VersionType.Version2013 = VersionType.Version2019))]
  norm_num [hgt, e1, e2, e3, e4, e5, e6, e7, readGBK, gbkDecode, hn,
    trimRightNul_padTo _ _ hm0, trimRightNul_padTo _ _ hd0,
    trimRightNul_padTo _ _ hi0, List.take_length]

theorem msg0100_roundtrip_2019 (x : Msg0100)
    (hver : x.header.attr.versionDesc = VersionType.Version2019)
    (hp : x.provinceID < 65536) (hc : x.cityID < 65536)
    (hm0 : (0 : Nat) ∉ x.manufacturerID) (hml : x.manufacturerID.length ≤ 11)
    (hd0 : (0 : Nat) ∉ x.deviceMode) (hdl : x.deviceMode.length ≤ 30)
    (hi0 : (0 : Nat) ∉ x.deviceID) (hil : x.deviceID.length ≤ 30) :
    ∃ pkt y, x.Encode = .ok pkt ∧ Msg0100.Decode pkt = .ok y ∧
      y.provinceID = x.provinceID ∧ y.cityID = x.cityID ∧
      y.manufacturerID = x.manufacturerID ∧ y.deviceMode = x.deviceMode ∧
      y.deviceID = x.deviceID ∧ y.plateColor = x.plateColor ∧
      y.plateNumber = x.plateNumber := by
  have l1 : (padTo 11 x.manufacturerID).length = 11 := padTo_length _ _ hml
  have l2 : (padTo 30 x.deviceMode).length = 30 := padTo_length _ _ hdl
  have l3 : (padTo 30 x.deviceID).length = 30 := padTo_length _ _ hil
  set B : Bytes := writeWord x.provinceID ++ writeWord x.cityID ++
      padTo 11 x.manufacturerID ++ padTo 30 x.deviceMode ++
      padTo 30 x.deviceID ++ [x.plateColor] ++ x.plateNumber with hB
  have henc : x.Encode = .ok (writeHeader x.header B) := by
    rw [hB]
    simp [Msg0100.Encode, hver, gbkEncode]
  have lB : B.length = 76 + x.plateNumber.length := by
    rw [hB]
    simp [writeWord, l1, l2, l3]
    try omega
  have hBr : B = writeWord x.provinceID ++ (writeWord x.cityID ++
      (padTo 11 x.manufacturerID ++ (padTo 30 x.deviceMode ++
        (padTo 30 x.deviceID ++ ([x.plateColor] ++ x.plateNumber))))) := by
    rw [hB]
    simp [List.append_assoc]
  have hB4 : B = (writeWord x.provinceID ++ writeWord x.cityID) ++
      (padTo 11 x.manufacturerID ++ (padTo 30 x.deviceMode ++
        (padTo 30 x.deviceID ++ ([x.plateColor] ++ x.plateNumber)))) := by
    rw [hB]
    simp [List.append_assoc]
  have hB15 : B = (writeWord x.provinceID ++ writeWord x.cityID ++
      padTo 11 x.manufacturerID) ++ (padTo 30 x.deviceMode ++
        (padTo 30 x.deviceID ++ ([x.plateColor] ++ x.plateNumber))) := by
    rw [hB]
    simp [List.append_assoc]
  have hB45 : B = (writeWord x.provinceID ++ writeWord x.cityID ++
      padTo 11 x.manufacturerID ++ padTo 30 x.deviceMode) ++
      (padTo 30 x.deviceID ++ ([x.plateColor] ++ x.plateNumber)) := by
    rw [hB]
    simp [List.append_assoc]
  have hB75 : B = (writeWord x.provinceID ++ writeWord x.cityID ++
      padTo 11 x.manufacturerID ++ padTo 30 x.deviceMode ++
      padTo 30 x.deviceID) ++ (x.plateColor :: x.plateNumber) := by
    rw [hB]
    simp [List.append_assoc]
  have hB76 : B = (writeWord x.provinceID ++ writeWord x.cityID ++
      padTo 11 x.manufacturerID ++ padTo 30 x.deviceMode ++
      padTo 30 x.deviceID ++ [x.plateColor]) ++ x.plateNumber := by
    rw [hB]
  have L4 : (writeWord x.provinceID ++ writeWord x.cityID).length = 4 := by
    simp [writeWord]
  have L15 : (writeWord x.provinceID ++ writeWord x.cityID ++
      padTo 11 x.manufacturerID).length = 15 := by
    simp [writeWord, l1]
  have L45 : (writeWord x.provinceID ++ writeWord x.cityID ++
      padTo 11 x.manufacturerID ++ padTo 30 x.deviceMode).length = 45 := by
    simp [writeWord, l1, l2]
  have L75 : (writeWord x.provinceID ++ writeWord x.cityID ++
      padTo 11 x.manufacturerID ++ padTo 30 x.deviceMode ++
      padTo 30 x.deviceID).length = 75 := by
    simp [writeWord, l1, l2, l3]
  have L76 : (writeWord x.provinceID ++ writeWord x.cityID ++
      padTo 11 x.manufacturerID ++ padTo 30 x.deviceMode ++
      padTo 30 x.deviceID ++ [x.plateColor]).length = 76 := by
    simp [writeWord, l1, l2, l3]
  have e1 : readWord B 0 = x.provinceID := by
    rw [hBr]
    exact readWord_writeWord _ _ hp
  have e2 : readWord B 2 = x.cityID := by
    rw [hBr]
    exact readWord_writeWord_two _ _ _ hc
  have e3 : readStr B 4 11 = padTo 11 x.manufacturerID := by
    rw [hB4]
    exact readStr_pre _ _ _ _ L4 _ l1
  have e4 : readStr B 15 30 = padTo 30 x.deviceMode := by
    rw [hB15]
    exact readStr_pre _ _ _ _ L15 _ l2
  have e5 : readStr B 45 30 = padTo 30 x.deviceID := by
    rw [hB45]
    exact readStr_pre _ _ _ _ L45 _ l3
  have e6 : readByteAt B 75 = x.plateColor := by
    rw [hB75]
    exact readByteAt_pre _ _ _ _ L75
  have e7 : B.drop 76 = x.plateNumber := by
    rw [hB76]
    exact drop_pre _ _ _ L76
  have hn : ((B.length : Int) - 76).toNat = x.plateNumber.length := by
    rw [lB]
    omega
  refine ⟨writeHeader x.header B,
    { header := (writeHeader x.header B).header,
      provinceID := x.provinceID, cityID := x.cityID,
      manufacturerID := x.manufacturerID, deviceMode := x.deviceMode,
      deviceID := x.deviceID, plateColor := x.plateColor,
      plateNumber := x.plateNumber },
    henc, ?_, rfl, rfl, rfl, rfl, rfl, rfl, rfl⟩
  simp only [Msg0100.Decode, writeHeader, hver]
  norm_num [e1, e2, e3, e4, e5, e6, e7, readGBK, gbkDecode, hn,
    trimRightNul_padTo _ _ hm0, trimRightNul_padTo _ _ hd0,
    trimRightNul_padTo _ _ hi0, List.take_length]

/-- Counterexample to C5 as stated: (a) a well-formed Msg0100 with a
2011-version header does not round-trip — `Decode` handles only the 2019
and 2013 version descriptors and rejects the encoded packet with
`ErrDecodeMsg` (2011 wire packets reach `Decode` under the 2013 descriptor
and the length heuristic); (b) a 2013 message with an empty plate number
falls below the `5+20+7+1` threshold, is decoded with the 2011 widths, and
its device id "DEV0001" is not recovered (the decode yields an empty
device id). -/
theorem msg0100_roundtrip_counterexample :
    x2011.Encode.bind Msg0100.Decode = .error (.base .errDecodeMsg) ∧
    asciiNulFree x2011.manufacturerID ∧ asciiNulFree x2011.deviceMode ∧
    asciiNulFree x2011.deviceID ∧
    x2013e.Encode.bind Msg0100.Decode = .ok
      { header := mkHeader 0x0100 37 .Version2013, provinceID := 44,
        cityID := 257, manufacturerID := [65, 66, 67, 68, 69],
        deviceMode := [77], deviceID := [], plateColor := 0,
        plateNumber := [0, 0, 0, 0, 68, 69, 86, 48, 48, 48, 49, 1] } ∧
    x2013e.deviceID = [68, 69, 86, 48, 48, 48, 49] := by
  refine ⟨rfl, by decide, by decide, by decide, rfl, rfl⟩

/-- Claim C5 as amended: for a Msg0100 whose header version is 2019, or
2013 with a nonempty plate number, and whose manufacturer, model and
device-id strings are NUL-free ASCII within the version's field widths
(with 16-bit province and city ids), decoding the packet produced by
`Encode` (whose header body length is the encoded body's length) recovers
province, city, manufacturer, model, device id, plate color and plate
number.  Values with a 2011-version header are rejected by `Decode`, and a
2013 value with an empty plate falls into the 2011-width fallback, so
those are excluded. -/
theorem msg0100_decode_encode_roundtrip (x : Msg0100)
    (hp : x.provinceID < 65536) (hc : x.cityID < 65536)
    (hm : asciiNulFree x.manufacturerID)
    (hml : x.manufacturerID.length ≤ manuWidth x.header.attr.versionDesc)
    (hd : asciiNulFree x.deviceMode)
    (hdl : x.deviceMode.length ≤ modeWidth x.header.attr.versionDesc)
    (hi : asciiNulFree x.deviceID)
    (hil : x.deviceID.length ≤ idWidth x.header.attr.versionDesc)
    (hv : x.header.attr.versionDesc = VersionType.Version2019 ∨
      (x.header.attr.versionDesc = VersionType.Version2013 ∧
        x.plateNumber ≠ [])) :
    ∃ pkt y, x.Encode = .ok pkt ∧ Msg0100.Decode pkt = .ok y ∧
      y.provinceID = x.provinceID ∧ y.cityID = x.cityID ∧
      y.manufacturerID = x.manufacturerID ∧ y.deviceMode = x.deviceMode ∧
      y.deviceID = x.deviceID ∧ y.plateColor = x.plateColor ∧
      y.plateNumber = x.plateNumber := by
  rcases hv with hv | ⟨hv, hpl⟩
  · rw [hv] at hml hdl hil
    simp only [manuWidth, modeWidth, idWidth] at hml hdl hil
    exact msg0100_roundtrip_2019 x hv hp hc hm.1 hml hd.1 hdl hi.1 hil
  · rw [hv] at hml hdl hil
    simp only [manuWidth, modeWidth, idWidth] at hml hdl hil
    exact msg0100_roundtrip_2013 x hv hp hc hm.1 hml hd.1 hdl hi.1 hil hpl

/-- Witness for the amended C5 at the concrete 2013 register message with
plate "JA1". -/
theorem msg0100_decode_encode_roundtrip_witness :
    ∃ pkt y, x2013.Encode = .ok pkt ∧ Msg0100.Decode pkt = .ok y ∧
      y.provinceID = x2013.provinceID ∧ y.cityID = x2013.cityID ∧
      y.manufacturerID = x2013.manufacturerID ∧
      y.deviceMode = x2013.deviceMode ∧
      y.deviceID = x2013.deviceID ∧ y.plateColor = x2013.plateColor ∧
      y.plateNumber = x2013.plateNumber :=
  msg0100_decode_encode_roundtrip x2013 (by decide) (by decide) (by decide)
    (by decide) (by decide) (by decide) (by decide) (by decide)
    (Or.inr ⟨rfl, by decide⟩)

end JT808
